import Mathlib

/-
Verification of the Tabular-to-Geospatial Row Mapper in
src/gpkg_utils.py: the column-type coercion routine coerce_value
(lines 46-61) and the CSV-to-GeoDataFrame assembly csv_to_gdf
(lines 134-179), together with models of the third-party string
parsers they delegate to (Python int()/float()/bool(), pandas
to_datetime with a fixed format, shapely from_wkt restricted to
2-D points) and of the geopandas GeoDataFrame constructor.
-/

set_option maxRecDepth 4000

namespace GeoTools

/-- Python exception values surfaced by the mapper: the class tag plus
the message (for KeyError, the missing key). -/
inductive PyError where
  | valueError (msg : String)
  | typeError (msg : String)
  | keyError (key : String)
  | exception (msg : String)
  deriving DecidableEq

/-- Decidable equality of result values, used to evaluate the model on
concrete inputs. -/
def exceptDecEq {ε α : Type} [DecidableEq ε] [DecidableEq α] : DecidableEq (Except ε α)
  | .error a, .error b =>
    if h : a = b then .isTrue (by rw [h]) else .isFalse (fun hh => by cases hh; exact h rfl)
  | .error _, .ok _ => .isFalse (fun hh => by cases hh)
  | .ok _, .error _ => .isFalse (fun hh => by cases hh)
  | .ok a, .ok b =>
    if h : a = b then .isTrue (by rw [h]) else .isFalse (fun hh => by cases hh; exact h rfl)

instance {ε α : Type} [DecidableEq ε] [DecidableEq α] : DecidableEq (Except ε α) := exceptDecEq

/-- The column-type enumeration of src/gpkg_utils.py lines 34-43. -/
inductive DataType where
  | TEXT
  | INT
  | DOUBLE
  | BOOLEAN
  | DATE
  | DATETIME
  | LATITUDE
  | LONGITUDE
  | GEOMETRY
  deriving DecidableEq

/-- How Python str(dtype) renders a DataType member, as used by the
f-string in the error branch of coerce_value (line 61). -/
def dtypeStr : DataType → String
  | .TEXT => "DataType.TEXT"
  | .INT => "DataType.INT"
  | .DOUBLE => "DataType.DOUBLE"
  | .BOOLEAN => "DataType.BOOLEAN"
  | .DATE => "DataType.DATE"
  | .DATETIME => "DataType.DATETIME"
  | .LATITUDE => "DataType.LATITUDE"
  | .LONGITUDE => "DataType.LONGITUDE"
  | .GEOMETRY => "DataType.GEOMETRY"

/-- A calendar date, the result of pd.to_datetime(v, format).date(). -/
structure PyDate where
  year : Nat
  month : Nat
  day : Nat
  deriving DecidableEq

/-- A timestamp, the result of pd.to_datetime(v, format) for the
DATETIME column type. -/
structure PyDateTime where
  date : PyDate
  hour : Nat
  minute : Nat
  second : Nat
  deriving DecidableEq

/-- Value of a Python float: a finite value modelled exactly as the
decimal m times 10 to the e, kept canonical (zero is finite 0 0, and
otherwise 10 never divides m, so equal decimal values have equal
representations; IEEE-754 rounding of the literal is not modelled and
negative zero is identified with zero), or an infinity, or NaN. -/
inductive PyFloat where
  | finite (m : Int) (e : Int)
  | inf (neg : Bool)
  | nan
  deriving DecidableEq

/-- Whitespace characters stripped by Python's int()/float() string
conversions. -/
def isPySpace (c : Char) : Bool :=
  c == ' ' || c == '\t' || c == '\n' || c == '\r' || c == '\x0b' || c == '\x0c'

/-- Strip leading and trailing whitespace from a character list. -/
def stripWS (cs : List Char) : List Char :=
  ((cs.dropWhile isPySpace).reverse.dropWhile isPySpace).reverse

/-- Split a leading sign character off a numeric literal. -/
def stripSign : List Char → Bool × List Char
  | '-' :: r => (true, r)
  | '+' :: r => (false, r)
  | r => (false, r)

/-- Numeric value of a list of decimal digit characters. -/
def digitsVal (cs : List Char) : Nat :=
  cs.foldl (fun a c => a * 10 + (c.toNat - 48)) 0

/-- Model of Python's built-in int(str): strip whitespace, optional
sign, then one or more decimal digits (underscore digit separators and
non-ASCII digits are not modelled). Returns none where Python raises
ValueError. -/
def pyInt (s : String) : Option Int :=
  let cs := stripWS s.data
  let (neg, r) := stripSign cs
  if r.isEmpty || !(r.all Char.isDigit) then none
  else some (if neg then -(digitsVal r : Int) else (digitsVal r : Int))

/-- Strip factors of 10 from a mantissa, returning the reduced
mantissa and how many powers of 10 were removed; the fuel argument
(any bound on the powers removed) makes the recursion structural. -/
def stripZeros : Nat → Nat → Nat × Nat
  | 0, n => (n, 0)
  | fuel + 1, n =>
    if n != 0 && n % 10 == 0 then
      let (n1, c) := stripZeros fuel (n / 10)
      (n1, c + 1)
    else (n, 0)

/-- Canonical finite float value with sign, decimal mantissa n and
decimal exponent e. -/
def mkDec (neg : Bool) (n : Nat) (e : Int) : PyFloat :=
  if n == 0 then .finite 0 0
  else
    let (n1, c) := stripZeros n n
    .finite (if neg then -(n1 : Int) else (n1 : Int)) (e + c)

/-- Finish parsing a float literal after the mantissa digits: an
optional exponent part, then end of input. The denoted value is the
mantissa digits ip.fp times 10 to the signed exponent. -/
def finishFloat (neg : Bool) (ip fp r2 : List Char) : Option PyFloat :=
  if ip.isEmpty && fp.isEmpty then none
  else
    match r2 with
    | [] => some (mkDec neg (digitsVal (ip ++ fp)) (-(fp.length : Int)))
    | e :: t =>
      if e == 'e' || e == 'E' then
        let (eneg, t1) := stripSign t
        let (ed, r3) := t1.span Char.isDigit
        if ed.isEmpty || !r3.isEmpty then none
        else
          let ex : Int := if eneg then -(digitsVal ed : Int) else (digitsVal ed : Int)
          some (mkDec neg (digitsVal (ip ++ fp)) (ex - (fp.length : Int)))
      else none

/-- Model of Python's built-in float(str): strip whitespace, optional
sign, then inf/infinity/nan (case-insensitive) or a decimal literal
with at least one mantissa digit and an optional exponent (underscore
separators are not modelled). Returns none where Python raises
ValueError. -/
def pyFloat (s : String) : Option PyFloat :=
  let cs := stripWS s.data
  let (neg, r0) := stripSign cs
  let low := r0.map Char.toLower
  if low = "inf".data || low = "infinity".data then some (.inf neg)
  else if low = "nan".data then some .nan
  else
    let (ip, r1) := r0.span Char.isDigit
    match r1 with
    | '.' :: t =>
      let (fp, r2) := t.span Char.isDigit
      finishFloat neg ip fp r2
    | r2 => finishFloat neg ip [] r2

/-- Wrap a string in single quotes, as Python's repr does inside the
int()/float() ValueError messages (escape sequences for quotes inside
the value are not modelled). -/
def pyQuote (s : String) : String := "\x27" ++ s ++ "\x27"

/-- True when y is a leap year (Gregorian rule). -/
def isLeap (y : Nat) : Bool :=
  (y % 4 == 0 && y % 100 != 0) || y % 400 == 0

/-- Number of days in a month, as validated by datetime construction. -/
def daysInMonth (y m : Nat) : Nat :=
  if m == 2 then (if isLeap y then 29 else 28)
  else if m == 4 || m == 6 || m == 9 || m == 11 then 30
  else 31

/-- Field of 1 or 2 digits whose value lies in lo..hi, as matched by
the strptime regular expressions for the directives %m, %d, %H, %M and
%S (one digit, or two digits with the fixed value range). -/
def runVal2 (lo hi : Nat) (run : List Char) : Bool :=
  (run.length == 1 || run.length == 2) && lo ≤ digitsVal run && digitsVal run ≤ hi

/-- Regex-level match of a string against the strptime format
"%Y-%m-%d": exactly four year digits, a month of 1-12 and a day of
1-31 each written with one or two digits, nothing left over. Calendar
validity is checked separately. -/
def strptimeDateRaw (s : String) : Option (Nat × Nat × Nat) :=
  let (yr, r1) := s.data.span Char.isDigit
  match r1 with
  | '-' :: r2 =>
    let (mr, r3) := r2.span Char.isDigit
    match r3 with
    | '-' :: r4 =>
      let (dr, r5) := r4.span Char.isDigit
      if r5.isEmpty && yr.length == 4 && runVal2 1 12 mr && runVal2 1 31 dr then
        some (digitsVal yr, digitsVal mr, digitsVal dr)
      else none
    | _ => none
  | _ => none

/-- The pandas nat_strings set: string spellings that to_datetime
converts to the missing-timestamp value NaT instead of parsing. -/
def natStrings : List String := ["NaT", "nat", "NAT", "nan", "NaN", "NAN"]

/-- Model of pd.to_datetime(v, format e.g. Y-m-d).date() as called on
line 57. The pandas strptime loop first turns the empty string and any
member of nat_strings into NaT without raising (modelled as ok none;
the date() method of NaT returns NaT itself); every other string gets
a full-string strptime match followed by calendar validation, whose
failures are ValueError-class. -/
def pdToDatetimeDate (v : String) : Except PyError (Option PyDate) :=
  if v = "" || natStrings.contains v then .ok none
  else
    match strptimeDateRaw v with
    | none =>
      .error (.valueError ("time data \"" ++ v ++ "\" doesn\x27t match format \"%Y-%m-%d\", at position 0"))
    | some (y, m, d) =>
      if y == 0 then .error (.valueError "year 0 is out of range, at position 0")
      else if d ≤ daysInMonth y m then .ok (some ⟨y, m, d⟩)
      else .error (.valueError "day is out of range for month, at position 0")

/-- Regex-level match against the strptime format with date, a space,
then hours, minutes and seconds separated by colons. -/
def strptimeDatetimeRaw (s : String) : Option ((Nat × Nat × Nat) × (Nat × Nat × Nat)) :=
  let (yr, r1) := s.data.span Char.isDigit
  match r1 with
  | '-' :: r2 =>
    let (mr, r3) := r2.span Char.isDigit
    match r3 with
    | '-' :: r4 =>
      let (dr, r5) := r4.span Char.isDigit
      match r5 with
      | ' ' :: r6 =>
        let (hr, r7) := r6.span Char.isDigit
        match r7 with
        | ':' :: r8 =>
          let (minr, r9) := r8.span Char.isDigit
          match r9 with
          | ':' :: r10 =>
            let (sr, r11) := r10.span Char.isDigit
            if r11.isEmpty && yr.length == 4 && runVal2 1 12 mr && runVal2 1 31 dr
                && runVal2 0 23 hr && runVal2 0 59 minr && runVal2 0 59 sr then
              some ((digitsVal yr, digitsVal mr, digitsVal dr),
                    (digitsVal hr, digitsVal minr, digitsVal sr))
            else none
          | _ => none
        | _ => none
      | _ => none
    | _ => none
  | _ => none

/-- Model of pd.to_datetime(v, format with date and time) as called on
line 59, with the same NaT short-circuit for the empty string and the
nat_strings spellings as the date variant. -/
def pdToDatetime (v : String) : Except PyError (Option PyDateTime) :=
  if v = "" || natStrings.contains v then .ok none
  else
    match strptimeDatetimeRaw v with
    | none =>
      .error (.valueError ("time data \"" ++ v ++ "\" doesn\x27t match format \"%Y-%m-%d %H:%M:%S\", at position 0"))
    | some ((y, m, d), (hh, mm, ss)) =>
      if y == 0 then .error (.valueError "year 0 is out of range, at position 0")
      else if d ≤ daysInMonth y m then .ok (some ⟨⟨y, m, d⟩, hh, mm, ss⟩)
      else .error (.valueError "day is out of range for month, at position 0")

/-- A typed attribute value produced by coerce_value. The naT value is
the pandas missing-timestamp singleton NaT, which to_datetime yields
for empty and NaT-equivalent strings and which its date() method
returns unchanged. -/
inductive PyVal where
  | text (s : String)
  | int (i : Int)
  | double (f : PyFloat)
  | bool (b : Bool)
  | date (d : PyDate)
  | datetime (dt : PyDateTime)
  | naT
  deriving DecidableEq

/-- Model of coerce_value (src/gpkg_utils.py lines 46-61): convert a
raw string into the declared column type, propagating the underlying
parser's error unmodified; the fall-through branch raises a plain
Exception mentioning the column name and the type tag. -/
def coerce_value (key : String) (value : String) (dtype : DataType) : Except PyError PyVal :=
  match dtype with
  | .TEXT => .ok (.text value)
  | .INT =>
    match pyInt value with
    | some i => .ok (.int i)
    | none => .error (.valueError ("invalid literal for int() with base 10: " ++ pyQuote value))
  | .DOUBLE =>
    match pyFloat value with
    | some f => .ok (.double f)
    | none => .error (.valueError ("could not convert string to float: " ++ pyQuote value))
  | .BOOLEAN => .ok (.bool (value != ""))
  | .DATE =>
    match pdToDatetimeDate value with
    | .error e => .error e
    | .ok (some d) => .ok (.date d)
    | .ok none => .ok .naT
  | .DATETIME =>
    match pdToDatetime value with
    | .error e => .error e
    | .ok (some dt) => .ok (.datetime dt)
    | .ok none => .ok .naT
  | _ => .error (.exception ("Unknown data type for col " ++ pyQuote key ++ ": " ++ dtypeStr dtype ++ "..."))

/-- A geometry value. The mapper only ever constructs 2-D points
(shapely Point in lat/lon mode, or whatever from_wkt returns in WKT
mode); the WKT model below is restricted to 2-D POINT geometries. -/
inductive Geometry where
  | point (x y : PyFloat)
  deriving DecidableEq

/-- Helper for splitting the coordinate text of a WKT point into
space-separated words. -/
def splitWordsAux : List Char → List Char → List (List Char)
  | [], acc => if acc.isEmpty then [] else [acc.reverse]
  | c :: t, acc =>
    if c == ' ' then
      if acc.isEmpty then splitWordsAux t [] else acc.reverse :: splitWordsAux t []
    else splitWordsAux t (c :: acc)

/-- Split a character list into maximal space-free words. -/
def splitWords (cs : List Char) : List (List Char) := splitWordsAux cs []

/-- Model of shapely.from_wkt as used on line 162, restricted to the
geometries this tool ever writes: a case-insensitive POINT tag, an
optional space, a parenthesised pair of numeric coordinates, and
nothing after the closing parenthesis. Every other string is rejected
(returns none where shapely raises GEOSException); 3-D points, other
geometry tags and POINT EMPTY are not modelled. -/
def from_wkt (s : String) : Option Geometry :=
  let cs := stripWS s.data
  if (cs.take 5).map Char.toLower = "point".data then
    match (cs.drop 5).dropWhile (· == ' ') with
    | '(' :: t =>
      let inner := t.takeWhile (· != ')')
      match t.dropWhile (· != ')') with
      | ')' :: after =>
        if (after.dropWhile (· == ' ')).isEmpty then
          match splitWords inner with
          | [xs, ys] =>
            match pyFloat (String.mk xs), pyFloat (String.mk ys) with
            | some x, some y => some (.point x y)
            | _, _ => none
          | _ => none
        else none
      | _ => none
    | _ => none
  else none

/-- An entry of one of the per-column accumulator lists: a geometry
appended on line 162/169, or a coerced attribute value appended on
line 176. -/
inductive Cell where
  | geom (g : Geometry)
  | val (v : PyVal)
  deriving DecidableEq

/-- True for geometry cells. -/
def Cell.isGeom : Cell → Bool
  | .geom _ => true
  | .val _ => false

/-- An input row as yielded by the csv.DictReader: an
insertion-ordered mapping from field name to raw string value. -/
abbrev Row := List (String × String)

/-- The accumulator dictionary built by csv_to_gdf: an
insertion-ordered mapping from column name to the list of cells
accumulated so far. -/
abbrev Data := List (String × List Cell)

/-- First value bound to a key in an insertion-ordered mapping
(Python dict/row indexing, minus the KeyError). -/
def dataGet {α : Type} (d : List (String × α)) (k : String) : Option α :=
  match d with
  | [] => none
  | (k1, v) :: t => if k1 == k then some v else dataGet t k

/-- Python dict assignment d[k] = v: replace the value of an existing
key in place, else append the new key at the end. -/
def dataSet {α : Type} (d : List (String × α)) (k : String) (v : α) : List (String × α) :=
  match d with
  | [] => [(k, v)]
  | (k1, v1) :: t => if k1 == k then (k, v) :: t else (k1, v1) :: dataSet t k v

/-- Python d[k].append(c): append one cell to the list bound to k,
raising KeyError when the key is absent. -/
def dataAppend (d : Data) (k : String) (c : Cell) : Except PyError Data :=
  match d with
  | [] => .error (.keyError k)
  | (k1, cs) :: t =>
    if k1 == k then .ok ((k1, cs ++ [c]) :: t)
    else (dataAppend t k c).map ((k1, cs) :: ·)

/-- Python row[k]: raw string lookup in a row, raising KeyError when
the field is absent. -/
def rowGet (row : Row) (k : String) : Except PyError String :=
  match dataGet row k with
  | some v => .ok v
  | none => .error (.keyError k)

/-- Lookup through an optional field name; the None key (reachable
only through the degenerate empty-string geometry column name, where
lat_col and lon_col are Python None) raises KeyError. -/
def rowGetOpt (row : Row) (k : Option String) : Except PyError String :=
  match k with
  | none => .error (.keyError "None")
  | some k1 => rowGet row k1

/-- The geometry column specification argument of csv_to_gdf: a plain
string (WKT mode) or a (latitude, longitude) column-name pair. -/
inductive GeomColSpec where
  | wkt (col : String)
  | latlon (lat lon : String)
  deriving DecidableEq

/-- The three local variables destructured from geom_col_spec on
lines 141-146: lat_col, lon_col and geom_col, each possibly None. -/
structure GeomCtx where
  latCol : Option String
  lonCol : Option String
  geomCol : Option String
  deriving DecidableEq

/-- Destructuring of geom_col_spec (lines 141-146). -/
def mkGeomCtx : GeomColSpec → GeomCtx
  | .latlon lat lon => ⟨some lat, some lon, none⟩
  | .wkt g => ⟨none, none, some g⟩

/-- The membership test header in [lat_col, lon_col, geom_col] used on
lines 150 and 173 (a string never equals Python None). -/
def isGeomRole (ctx : GeomCtx) (h : String) : Bool :=
  ctx.latCol == some h || ctx.lonCol == some h || ctx.geomCol == some h

/-- Accumulator initialisation (lines 148-151): a dict holding the
fixed key "geometry" first, then one empty list per non-geometry-role
header in order. -/
def initDataAux (ctx : GeomCtx) : List String → Data → Data
  | [], d => d
  | h :: t, d => initDataAux ctx t (if isGeomRole ctx h then d else dataSet d h [])

/-- The initial accumulator dictionary of csv_to_gdf. -/
def initData (ctx : GeomCtx) (headers : List String) : Data :=
  initDataAux ctx headers [("geometry", [])]

/-- The attribute loop of lines 172-176: for each (key, value) item of
the row in order, skip geometry-role columns, look the key up in
init_types (KeyError when absent), coerce the value (propagating any
coercion error) and append to that column's accumulator. -/
def appendAttrs (ctx : GeomCtx) (initTypes : List (String × DataType)) : Row → Data → Except PyError Data
  | [], d => .ok d
  | (key, value) :: rest, d =>
    if isGeomRole ctx key then appendAttrs ctx initTypes rest d
    else
      match dataGet initTypes key with
      | none => .error (.keyError key)
      | some colType => do
        let cv ← coerce_value key value colType
        let d1 ← dataAppend d key (.val cv)
        appendAttrs ctx initTypes rest d1

/-- The WKT-mode body of the row loop (lines 157-164 plus the shared
attribute loop): skip the row when the geometry column's raw value is
empty; otherwise parse it as WKT, turning a parser rejection into a
ValueError naming the 1-based row number and the offending text, then
append the geometry and process the attribute columns. -/
def wktStep (ctx : GeomCtx) (initTypes : List (String × DataType)) (g : String)
    (rowNum : Nat) (row : Row) (st : Data × Nat) : Except PyError (Data × Nat) := do
  let v ← rowGet row g
  if v = "" then .ok (st.1, st.2 + 1)
  else
    match from_wkt v with
    | none =>
      .error (.valueError ("Error parsing WKT geometry in row " ++ toString (rowNum + 1) ++ ": " ++ pyQuote v))
    | some geo => do
      let d1 ← dataAppend st.1 "geometry" (.geom geo)
      let d2 ← appendAttrs ctx initTypes row d1
      .ok (d2, st.2)

/-- The lat/lon-mode body of the row loop (lines 166-169 plus the
shared attribute loop): fetch the longitude value first, short-circuit
skipping the row when it (or then the latitude value) is empty;
otherwise convert longitude then latitude with float() (ValueError on
a malformed literal) and append Point(lon, lat). -/
def latlonStep (ctx : GeomCtx) (initTypes : List (String × DataType))
    (row : Row) (st : Data × Nat) : Except PyError (Data × Nat) := do
  let lonv ← rowGetOpt row ctx.lonCol
  if lonv = "" then .ok (st.1, st.2 + 1)
  else do
    let latv ← rowGetOpt row ctx.latCol
    if latv = "" then .ok (st.1, st.2 + 1)
    else
      match pyFloat lonv with
      | none => .error (.valueError ("could not convert string to float: " ++ pyQuote lonv))
      | some x =>
        match pyFloat latv with
        | none => .error (.valueError ("could not convert string to float: " ++ pyQuote latv))
        | some y => do
          let d1 ← dataAppend st.1 "geometry" (.geom (.point x y))
          let d2 ← appendAttrs ctx initTypes row d1
          .ok (d2, st.2)

/-- One iteration of the row loop (lines 155-176). The dispatch
mirrors the Python truthiness test if geom_col: an absent or
empty-string geometry column name selects the lat/lon branch. -/
def processRow (ctx : GeomCtx) (initTypes : List (String × DataType))
    (rowNum : Nat) (row : Row) (st : Data × Nat) : Except PyError (Data × Nat) :=
  match ctx.geomCol with
  | some g => if g = "" then latlonStep ctx initTypes row st else wktStep ctx initTypes g rowNum row st
  | none => latlonStep ctx initTypes row st

/-- The whole enumerate(reader) loop: fold processRow over the rows,
threading the accumulator dictionary and the skip count and
propagating the first error. -/
def processRows (ctx : GeomCtx) (initTypes : List (String × DataType))
    (rowNum : Nat) (st : Data × Nat) : List Row → Except PyError (Data × Nat)
  | [] => .ok st
  | r :: rs => do
    let st1 ← processRow ctx initTypes rowNum r st
    processRows ctx initTypes (rowNum + 1) st1 rs

/-- The returned geospatial table: the column dictionary plus the
declared coordinate reference system. -/
structure GeoDataFrame where
  cols : Data
  crs : String
  deriving DecidableEq

/-- All column lists have the length of the first column (the pandas
constructor's shape check on a dict of lists). -/
def allSameLength (d : Data) : Bool :=
  match d with
  | [] => true
  | (_, c) :: t => t.all (fun p => p.2.length == c.length)

/-- The "geometry" column exists and contains only geometry objects,
so that the constructor can make it the frame's geometry column. -/
def geometryColOk (d : Data) : Bool :=
  match dataGet d "geometry" with
  | some cs => cs.all Cell.isGeom
  | none => false

/-- Model of geopandas.GeoDataFrame(data, crs=crs) on line 178: pandas
raises ValueError when the column lists differ in length, and a
"geometry" column whose entries are not all geometry objects cannot
become the frame's geometry column, so constructing the geospatial
frame with the declared CRS fails (TypeError here; the exact error
class varies across geopandas versions). CRS-string validation itself
is delegated to pyproj and is not modelled. -/
def mkGeoDataFrame (d : Data) (crs : String) : Except PyError GeoDataFrame :=
  if !allSameLength d then .error (.valueError "All arrays must be of the same length")
  else if !geometryColOk d then .error (.typeError "Input must be valid geometry objects")
  else .ok ⟨d, crs⟩

/-- Model of csv_to_gdf (src/gpkg_utils.py lines 134-179): destructure
the geometry specification, initialise the accumulators, run the row
loop, then build the GeoDataFrame and return it with the skip count. -/
def csv_to_gdf (headers : List String) (initTypes : List (String × DataType))
    (geomColSpec : GeomColSpec) (crs : String) (rows : List Row) :
    Except PyError (GeoDataFrame × Nat) :=
  let ctx := mkGeomCtx geomColSpec
  (processRows ctx initTypes 0 (initData ctx headers, 0) rows).bind fun st =>
    (mkGeoDataFrame st.1 crs).map fun gdf => (gdf, st.2)

/-- Number of rows of the frame (pandas shape[0]): the length of the
geometry column, which the constructor's same-length check makes equal
to every column's length. -/
def GeoDataFrame.numRows (g : GeoDataFrame) : Nat :=
  match dataGet g.cols "geometry" with
  | some cs => cs.length
  | none => 0

/-- A possibly-absent field name is bound in the row to a non-empty
value. -/
def optFieldNonEmpty (row : Row) (k : Option String) : Bool :=
  match k with
  | some k1 =>
    match dataGet row k1 with
    | some v => !(v == "")
    | none => false
  | none => false

/-- Both lat/lon source fields are present and non-empty. -/
def latlonNonEmpty (ctx : GeomCtx) (row : Row) : Bool :=
  optFieldNonEmpty row ctx.lonCol && optFieldNonEmpty row ctx.latCol

/-- Number of geometry cells sitting in the geometry accumulator. -/
def geomCount (d : Data) : Nat :=
  match dataGet d "geometry" with
  | some cs => cs.countP Cell.isGeom
  | none => 0

/-- The first list is a prefix of the second. -/
def listPrefix : List Char → List Char → Bool
  | [], _ => true
  | _ :: _, [] => false
  | a :: as, b :: bs => a == b && listPrefix as bs

/-- The needle occurs contiguously inside the hay. -/
def containsSub (needle : List Char) : List Char → Bool
  | [] => needle.isEmpty
  | c :: t => listPrefix needle (c :: t) || containsSub needle t

/-- The second string mentions the first as a substring; used to state
what an error message does or does not report. -/
def mentions (needle hay : String) : Bool := containsSub needle.data hay.data

/-- The row predicate behind the skip rule: the row's geometry source
field or fields are present and non-empty (in WKT mode the geometry
column; in lat/lon mode both the longitude and the latitude column).
Follows the truthiness tests of lines 158 and 166. -/
def geomSourceNonEmpty (ctx : GeomCtx) (row : Row) : Bool :=
  match ctx.geomCol with
  | some g =>
    if g = "" then latlonNonEmpty ctx row else optFieldNonEmpty row (some g)
  | none => latlonNonEmpty ctx row

/-! Lemmas about the dictionary primitives. -/

theorem dataGet_cons {α : Type} (k1 : String) (v1 : α) (t : List (String × α)) (k2 : String) :
    dataGet ((k1, v1) :: t) k2 = if k1 = k2 then some v1 else dataGet t k2 := by
  simp [dataGet, beq_iff_eq]

theorem dataSet_cons {α : Type} (k1 : String) (v1 : α) (t : List (String × α)) (k : String) (v : α) :
    dataSet ((k1, v1) :: t) k v = if k1 = k then (k, v) :: t else (k1, v1) :: dataSet t k v := by
  simp [dataSet, beq_iff_eq]

theorem dataAppend_cons (k1 : String) (cs : List Cell) (t : Data) (k : String) (c : Cell) :
    dataAppend ((k1, cs) :: t) k c
      = if k1 = k then .ok ((k1, cs ++ [c]) :: t) else (dataAppend t k c).map ((k1, cs) :: ·) := by
  simp [dataAppend, beq_iff_eq]

theorem dataGet_dataSet {α : Type} (d : List (String × α)) (k k2 : String) (v : α) :
    dataGet (dataSet d k v) k2 = if k2 = k then some v else dataGet d k2 := by
  induction d with
  | nil =>
    by_cases h : k = k2
    · rw [show dataSet [] k v = [(k, v)] from rfl, dataGet_cons, if_pos h, if_pos h.symm]
    · rw [show dataSet [] k v = [(k, v)] from rfl, dataGet_cons, if_neg h,
        if_neg (fun hh => h hh.symm)]
  | cons p t ih =>
    obtain ⟨k1, v1⟩ := p
    rw [dataSet_cons]
    by_cases h1 : k1 = k
    · subst h1
      rw [if_pos rfl, dataGet_cons, dataGet_cons]
      by_cases h2 : k1 = k2
      · rw [if_pos h2, if_pos h2.symm]
      · rw [if_neg h2, if_neg h2, if_neg (fun hh => h2 hh.symm)]
    · rw [if_neg h1, dataGet_cons, dataGet_cons]
      by_cases h2 : k1 = k2
      · subst h2
        rw [if_pos rfl, if_pos rfl, if_neg h1]
      · rw [if_neg h2, if_neg h2, ih]

theorem dataAppend_ok (d : Data) (k : String) (c : Cell) (d2 : Data)
    (h : dataAppend d k c = .ok d2) :
    ∃ cs, dataGet d k = some cs ∧ dataGet d2 k = some (cs ++ [c]) ∧
      ∀ k2, k2 ≠ k → dataGet d2 k2 = dataGet d k2 := by
  induction d generalizing d2 with
  | nil => simp [dataAppend] at h
  | cons p t ih =>
    obtain ⟨k1, cs⟩ := p
    rw [dataAppend_cons] at h
    by_cases hk : k1 = k
    · subst hk
      rw [if_pos rfl] at h
      cases h
      refine ⟨cs, ?_, ?_, ?_⟩
      · rw [dataGet_cons, if_pos rfl]
      · rw [dataGet_cons, if_pos rfl]
      · intro k2 hk2
        rw [dataGet_cons, dataGet_cons, if_neg (fun hh => hk2 hh.symm),
          if_neg (fun hh => hk2 hh.symm)]
    · rw [if_neg hk] at h
      cases ht : dataAppend t k c with
      | error e => rw [ht] at h; simp [Except.map] at h
      | ok t2 =>
        rw [ht] at h
        simp only [Except.map] at h
        cases h
        obtain ⟨cs3, h1, h2, h3⟩ := ih t2 ht
        refine ⟨cs3, ?_, ?_, ?_⟩
        · rw [dataGet_cons, if_neg hk, h1]
        · rw [dataGet_cons, if_neg hk, h2]
        · intro k2 hk2
          rw [dataGet_cons, dataGet_cons]
          by_cases hx : k1 = k2
          · rw [if_pos hx, if_pos hx]
          · rw [if_neg hx, if_neg hx, h3 k2 hk2]

theorem geomCount_dataAppend_val (d : Data) (k : String) (v : PyVal) (d2 : Data)
    (h : dataAppend d k (.val v) = .ok d2) : geomCount d2 = geomCount d := by
  obtain ⟨cs, h1, h2, h3⟩ := dataAppend_ok d k (.val v) d2 h
  by_cases hk : k = "geometry"
  · subst hk
    simp [geomCount, h1, h2, List.countP_append, List.countP_cons, List.countP_nil, Cell.isGeom]
  · simp [geomCount, h3 "geometry" (fun hh => hk hh.symm)]

theorem geomCount_dataAppend_geom (d : Data) (g : Geometry) (d2 : Data)
    (h : dataAppend d "geometry" (.geom g) = .ok d2) : geomCount d2 = geomCount d + 1 := by
  obtain ⟨cs, h1, h2, h3⟩ := dataAppend_ok d "geometry" (.geom g) d2 h
  simp [geomCount, h1, h2, List.countP_append, List.countP_cons, List.countP_nil, Cell.isGeom]

theorem appendAttrs_cons_role (ctx : GeomCtx) (it : List (String × DataType))
    (key value : String) (rest : Row) (d : Data)
    (hrole : isGeomRole ctx key) :
    appendAttrs ctx it ((key, value) :: rest) d = appendAttrs ctx it rest d := by
  simp [appendAttrs, hrole]

theorem appendAttrs_cons_none (ctx : GeomCtx) (it : List (String × DataType))
    (key value : String) (rest : Row) (d : Data)
    (hrole : ¬ isGeomRole ctx key) (hT : dataGet it key = none) :
    appendAttrs ctx it ((key, value) :: rest) d = .error (.keyError key) := by
  simp [appendAttrs, hrole, hT]

theorem appendAttrs_cons_some (ctx : GeomCtx) (it : List (String × DataType))
    (key value : String) (rest : Row) (d : Data) (colType : DataType)
    (hrole : ¬ isGeomRole ctx key) (hT : dataGet it key = some colType) :
    appendAttrs ctx it ((key, value) :: rest) d
      = (coerce_value key value colType >>= fun cv =>
          dataAppend d key (.val cv) >>= fun d1 =>
            appendAttrs ctx it rest d1) := by
  simp [appendAttrs, hrole, hT]

theorem except_bind_ok {ε α β : Type} (a : α) (f : α → Except ε β) :
    (Except.ok a >>= f) = f a := rfl

theorem except_bind_error {ε α β : Type} (e : ε) (f : α → Except ε β) :
    ((Except.error e : Except ε α) >>= f) = Except.error e := rfl

theorem geomCount_appendAttrs (ctx : GeomCtx) (it : List (String × DataType))
    (row : Row) (d : Data) (d2 : Data)
    (h : appendAttrs ctx it row d = .ok d2) : geomCount d2 = geomCount d := by
  induction row generalizing d with
  | nil => simp [appendAttrs] at h; rw [← h]
  | cons p rest ih =>
    obtain ⟨key, value⟩ := p
    by_cases hrole : isGeomRole ctx key
    · rw [appendAttrs_cons_role ctx it key value rest d hrole] at h
      exact ih d h
    · cases hT : dataGet it key with
      | none =>
        rw [appendAttrs_cons_none ctx it key value rest d hrole hT] at h
        exact Except.noConfusion h
      | some colType =>
        rw [appendAttrs_cons_some ctx it key value rest d colType hrole hT] at h
        cases hcv : coerce_value key value colType with
        | error e => rw [hcv, except_bind_error] at h; exact Except.noConfusion h
        | ok cv =>
          rw [hcv, except_bind_ok] at h
          cases hda : dataAppend d key (.val cv) with
          | error e => rw [hda, except_bind_error] at h; exact Except.noConfusion h
          | ok d1 =>
            rw [hda, except_bind_ok] at h
            rw [ih d1 h, geomCount_dataAppend_val d key cv d1 hda]

/-! Unfolding lemmas for the two row-loop branches. -/

theorem processRow_wkt (ctx : GeomCtx) (it : List (String × DataType)) (g : String)
    (n : Nat) (row : Row) (st : Data × Nat)
    (hg : ctx.geomCol = some g) (hne : g ≠ "") :
    processRow ctx it n row st = wktStep ctx it g n row st := by
  simp [processRow, hg, hne]

theorem processRow_latlon (ctx : GeomCtx) (it : List (String × DataType))
    (n : Nat) (row : Row) (st : Data × Nat)
    (hg : ctx.geomCol = none ∨ ctx.geomCol = some "") :
    processRow ctx it n row st = latlonStep ctx it row st := by
  cases hg with
  | inl h => simp [processRow, h]
  | inr h => simp [processRow, h]

theorem wktStep_missing (ctx : GeomCtx) (it : List (String × DataType)) (g : String)
    (n : Nat) (row : Row) (d : Data) (k : Nat)
    (hv : dataGet row g = none) :
    wktStep ctx it g n row (d, k) = .error (.keyError g) := by
  simp [wktStep, rowGet, hv, except_bind_error]

theorem wktStep_empty (ctx : GeomCtx) (it : List (String × DataType)) (g : String)
    (n : Nat) (row : Row) (d : Data) (k : Nat)
    (hv : dataGet row g = some "") :
    wktStep ctx it g n row (d, k) = .ok (d, k + 1) := by
  simp [wktStep, rowGet, hv, except_bind_ok]

theorem wktStep_badwkt (ctx : GeomCtx) (it : List (String × DataType)) (g : String)
    (n : Nat) (row : Row) (d : Data) (k : Nat) (v : String)
    (hv : dataGet row g = some v) (hne : v ≠ "") (hw : from_wkt v = none) :
    wktStep ctx it g n row (d, k)
      = .error (.valueError ("Error parsing WKT geometry in row " ++ toString (n + 1) ++ ": " ++ pyQuote v)) := by
  simp [wktStep, rowGet, hv, except_bind_ok, hne, hw]

theorem wktStep_goodwkt (ctx : GeomCtx) (it : List (String × DataType)) (g : String)
    (n : Nat) (row : Row) (d : Data) (k : Nat) (v : String) (geo : Geometry)
    (hv : dataGet row g = some v) (hne : v ≠ "") (hw : from_wkt v = some geo) :
    wktStep ctx it g n row (d, k)
      = (dataAppend d "geometry" (.geom geo) >>= fun d1 =>
          appendAttrs ctx it row d1 >>= fun d2 => Except.ok (d2, k)) := by
  simp [wktStep, rowGet, hv, except_bind_ok, hne, hw]

theorem latlonStep_nocol (ctx : GeomCtx) (it : List (String × DataType))
    (row : Row) (d : Data) (k : Nat)
    (hc : ctx.lonCol = none) :
    latlonStep ctx it row (d, k) = .error (.keyError "None") := by
  simp [latlonStep, rowGetOpt, hc, except_bind_error]

theorem latlonStep_lon_missing (ctx : GeomCtx) (it : List (String × DataType))
    (row : Row) (d : Data) (k : Nat) (lc : String)
    (hc : ctx.lonCol = some lc) (hv : dataGet row lc = none) :
    latlonStep ctx it row (d, k) = .error (.keyError lc) := by
  simp [latlonStep, rowGetOpt, rowGet, hc, hv, except_bind_error]

theorem latlonStep_lon_empty (ctx : GeomCtx) (it : List (String × DataType))
    (row : Row) (d : Data) (k : Nat) (lc : String)
    (hc : ctx.lonCol = some lc) (hv : dataGet row lc = some "") :
    latlonStep ctx it row (d, k) = .ok (d, k + 1) := by
  simp [latlonStep, rowGetOpt, rowGet, hc, hv, except_bind_ok]

theorem latlonStep_lat_nocol (ctx : GeomCtx) (it : List (String × DataType))
    (row : Row) (d : Data) (k : Nat) (lc lonv : String)
    (hc : ctx.lonCol = some lc) (hv : dataGet row lc = some lonv) (hne : lonv ≠ "")
    (htc : ctx.latCol = none) :
    latlonStep ctx it row (d, k) = .error (.keyError "None") := by
  simp [latlonStep, rowGetOpt, rowGet, hc, hv, hne, htc, except_bind_ok, except_bind_error]

theorem latlonStep_lat_missing (ctx : GeomCtx) (it : List (String × DataType))
    (row : Row) (d : Data) (k : Nat) (lc lonv tc : String)
    (hc : ctx.lonCol = some lc) (hv : dataGet row lc = some lonv) (hne : lonv ≠ "")
    (htc : ctx.latCol = some tc) (htv : dataGet row tc = none) :
    latlonStep ctx it row (d, k) = .error (.keyError tc) := by
  simp [latlonStep, rowGetOpt, rowGet, hc, hv, hne, htc, htv, except_bind_ok, except_bind_error]

theorem latlonStep_lat_empty (ctx : GeomCtx) (it : List (String × DataType))
    (row : Row) (d : Data) (k : Nat) (lc lonv tc : String)
    (hc : ctx.lonCol = some lc) (hv : dataGet row lc = some lonv) (hne : lonv ≠ "")
    (htc : ctx.latCol = some tc) (htv : dataGet row tc = some "") :
    latlonStep ctx it row (d, k) = .ok (d, k + 1) := by
  simp [latlonStep, rowGetOpt, rowGet, hc, hv, hne, htc, htv, except_bind_ok]

theorem latlonStep_badlon (ctx : GeomCtx) (it : List (String × DataType))
    (row : Row) (d : Data) (k : Nat) (lc lonv tc latv : String)
    (hc : ctx.lonCol = some lc) (hv : dataGet row lc = some lonv) (hne : lonv ≠ "")
    (htc : ctx.latCol = some tc) (htv : dataGet row tc = some latv) (htne : latv ≠ "")
    (hf : pyFloat lonv = none) :
    latlonStep ctx it row (d, k)
      = .error (.valueError ("could not convert string to float: " ++ pyQuote lonv)) := by
  simp [latlonStep, rowGetOpt, rowGet, hc, hv, hne, htc, htv, htne, hf, except_bind_ok]

theorem latlonStep_badlat (ctx : GeomCtx) (it : List (String × DataType))
    (row : Row) (d : Data) (k : Nat) (lc lonv tc latv : String) (x : PyFloat)
    (hc : ctx.lonCol = some lc) (hv : dataGet row lc = some lonv) (hne : lonv ≠ "")
    (htc : ctx.latCol = some tc) (htv : dataGet row tc = some latv) (htne : latv ≠ "")
    (hf : pyFloat lonv = some x) (hf2 : pyFloat latv = none) :
    latlonStep ctx it row (d, k)
      = .error (.valueError ("could not convert string to float: " ++ pyQuote latv)) := by
  simp [latlonStep, rowGetOpt, rowGet, hc, hv, hne, htc, htv, htne, hf, hf2, except_bind_ok]

theorem latlonStep_good (ctx : GeomCtx) (it : List (String × DataType))
    (row : Row) (d : Data) (k : Nat) (lc lonv tc latv : String) (x y : PyFloat)
    (hc : ctx.lonCol = some lc) (hv : dataGet row lc = some lonv) (hne : lonv ≠ "")
    (htc : ctx.latCol = some tc) (htv : dataGet row tc = some latv) (htne : latv ≠ "")
    (hf : pyFloat lonv = some x) (hf2 : pyFloat latv = some y) :
    latlonStep ctx it row (d, k)
      = (dataAppend d "geometry" (.geom (.point x y)) >>= fun d1 =>
          appendAttrs ctx it row d1 >>= fun d2 => Except.ok (d2, k)) := by
  simp [latlonStep, rowGetOpt, rowGet, hc, hv, hne, htc, htv, htne, hf, hf2, except_bind_ok]

/-! Case analysis of one row-loop iteration, and the counting
invariants it maintains. -/

theorem latlonStep_ok_cases (ctx : GeomCtx) (it : List (String × DataType))
    (row : Row) (d : Data) (k : Nat) (d2 : Data) (k2 : Nat)
    (h : latlonStep ctx it row (d, k) = .ok (d2, k2)) :
    (latlonNonEmpty ctx row = true ∧ geomCount d2 = geomCount d + 1 ∧ k2 = k) ∨
    (latlonNonEmpty ctx row = false ∧ d2 = d ∧ k2 = k + 1) := by
  cases hc : ctx.lonCol with
  | none => rw [latlonStep_nocol ctx it row d k hc] at h; exact Except.noConfusion h
  | some lc =>
    cases hv : dataGet row lc with
    | none => rw [latlonStep_lon_missing ctx it row d k lc hc hv] at h; exact Except.noConfusion h
    | some lonv =>
      by_cases hne : lonv = ""
      · subst hne
        rw [latlonStep_lon_empty ctx it row d k lc hc hv] at h
        cases h
        exact Or.inr ⟨by simp [latlonNonEmpty, optFieldNonEmpty, hc, hv], rfl, rfl⟩
      · cases htc : ctx.latCol with
        | none =>
          rw [latlonStep_lat_nocol ctx it row d k lc lonv hc hv hne htc] at h
          exact Except.noConfusion h
        | some tc =>
          cases htv : dataGet row tc with
          | none =>
            rw [latlonStep_lat_missing ctx it row d k lc lonv tc hc hv hne htc htv] at h
            exact Except.noConfusion h
          | some latv =>
            by_cases htne : latv = ""
            · subst htne
              rw [latlonStep_lat_empty ctx it row d k lc lonv tc hc hv hne htc htv] at h
              cases h
              exact Or.inr ⟨by simp [latlonNonEmpty, optFieldNonEmpty, hc, hv, htc, htv], rfl, rfl⟩
            · cases hf : pyFloat lonv with
              | none =>
                rw [latlonStep_badlon ctx it row d k lc lonv tc latv hc hv hne htc htv htne hf] at h
                exact Except.noConfusion h
              | some x =>
                cases hf2 : pyFloat latv with
                | none =>
                  rw [latlonStep_badlat ctx it row d k lc lonv tc latv x hc hv hne htc htv htne hf hf2] at h
                  exact Except.noConfusion h
                | some y =>
                  rw [latlonStep_good ctx it row d k lc lonv tc latv x y hc hv hne htc htv htne hf hf2] at h
                  cases hda : dataAppend d "geometry" (.geom (.point x y)) with
                  | error e => rw [hda, except_bind_error] at h; exact Except.noConfusion h
                  | ok d1 =>
                    rw [hda, except_bind_ok] at h
                    cases haa : appendAttrs ctx it row d1 with
                    | error e => rw [haa, except_bind_error] at h; exact Except.noConfusion h
                    | ok dd =>
                      rw [haa, except_bind_ok] at h
                      cases h
                      refine Or.inl ⟨by simp [latlonNonEmpty, optFieldNonEmpty, hc, hv, htc, htv, hne, htne], ?_, rfl⟩
                      rw [geomCount_appendAttrs ctx it row d1 d2 haa,
                        geomCount_dataAppend_geom d (.point x y) d1 hda]

theorem wktStep_ok_cases (ctx : GeomCtx) (it : List (String × DataType)) (g : String)
    (n : Nat) (row : Row) (d : Data) (k : Nat) (d2 : Data) (k2 : Nat)
    (h : wktStep ctx it g n row (d, k) = .ok (d2, k2)) :
    (optFieldNonEmpty row (some g) = true ∧ geomCount d2 = geomCount d + 1 ∧ k2 = k) ∨
    (optFieldNonEmpty row (some g) = false ∧ d2 = d ∧ k2 = k + 1) := by
  cases hv : dataGet row g with
  | none => rw [wktStep_missing ctx it g n row d k hv] at h; exact Except.noConfusion h
  | some v =>
    by_cases hne : v = ""
    · subst hne
      rw [wktStep_empty ctx it g n row d k hv] at h
      cases h
      exact Or.inr ⟨by simp [optFieldNonEmpty, hv], rfl, rfl⟩
    · cases hw : from_wkt v with
      | none =>
        rw [wktStep_badwkt ctx it g n row d k v hv hne hw] at h
        exact Except.noConfusion h
      | some geo =>
        rw [wktStep_goodwkt ctx it g n row d k v geo hv hne hw] at h
        cases hda : dataAppend d "geometry" (.geom geo) with
        | error e => rw [hda, except_bind_error] at h; exact Except.noConfusion h
        | ok d1 =>
          rw [hda, except_bind_ok] at h
          cases haa : appendAttrs ctx it row d1 with
          | error e => rw [haa, except_bind_error] at h; exact Except.noConfusion h
          | ok dd =>
            rw [haa, except_bind_ok] at h
            cases h
            refine Or.inl ⟨by simp [optFieldNonEmpty, hv, hne], ?_, rfl⟩
            rw [geomCount_appendAttrs ctx it row d1 d2 haa,
              geomCount_dataAppend_geom d geo d1 hda]

theorem processRow_ok_cases (ctx : GeomCtx) (it : List (String × DataType))
    (n : Nat) (row : Row) (d : Data) (k : Nat) (d2 : Data) (k2 : Nat)
    (h : processRow ctx it n row (d, k) = .ok (d2, k2)) :
    (geomSourceNonEmpty ctx row = true ∧ geomCount d2 = geomCount d + 1 ∧ k2 = k) ∨
    (geomSourceNonEmpty ctx row = false ∧ d2 = d ∧ k2 = k + 1) := by
  cases hgc : ctx.geomCol with
  | none =>
    rw [processRow_latlon ctx it n row (d, k) (Or.inl hgc)] at h
    have := latlonStep_ok_cases ctx it row d k d2 k2 h
    simpa [geomSourceNonEmpty, hgc] using this
  | some g =>
    by_cases hne : g = ""
    · subst hne
      rw [processRow_latlon ctx it n row (d, k) (Or.inr hgc)] at h
      have := latlonStep_ok_cases ctx it row d k d2 k2 h
      simpa [geomSourceNonEmpty, hgc] using this
    · rw [processRow_wkt ctx it g n row (d, k) hgc hne] at h
      have := wktStep_ok_cases ctx it g n row d k d2 k2 h
      simpa [geomSourceNonEmpty, hgc, hne] using this

theorem processRows_ok_count (ctx : GeomCtx) (it : List (String × DataType))
    (rs : List Row) (n : Nat) (d : Data) (k : Nat) (d2 : Data) (k2 : Nat)
    (h : processRows ctx it n (d, k) rs = .ok (d2, k2)) :
    geomCount d2 = geomCount d + rs.countP (geomSourceNonEmpty ctx) ∧
      k2 = k + rs.countP (fun r => !geomSourceNonEmpty ctx r) := by
  induction rs generalizing n d k with
  | nil =>
    cases h
    simp
  | cons r rest ih =>
    rw [show processRows ctx it n (d, k) (r :: rest)
        = (processRow ctx it n r (d, k) >>= fun st1 =>
            processRows ctx it (n + 1) st1 rest) from rfl] at h
    cases hp : processRow ctx it n r (d, k) with
    | error e => rw [hp, except_bind_error] at h; exact Except.noConfusion h
    | ok st1 =>
      obtain ⟨d1, k1⟩ := st1
      rw [hp, except_bind_ok] at h
      obtain ⟨ih1, ih2⟩ := ih (n + 1) d1 k1 h
      rcases processRow_ok_cases ctx it n r d k d1 k1 hp with
        ⟨hpred, hgc, hkc⟩ | ⟨hpred, hdc, hkc⟩
      · subst hkc
        constructor
        · rw [ih1, hgc, List.countP_cons, if_pos hpred]
          omega
        · rw [ih2, List.countP_cons]
          simp [hpred]
      · subst hdc
        subst hkc
        constructor
        · rw [ih1, List.countP_cons, if_neg (by simp [hpred])]
          omega
        · rw [ih2, List.countP_cons]
          simp [hpred]
          omega

/-! The initial accumulator and final constructor. -/

theorem dataGet_initDataAux_geometry (ctx : GeomCtx) (hs : List String) (d : Data)
    (h : dataGet d "geometry" = some []) :
    dataGet (initDataAux ctx hs d) "geometry" = some [] := by
  induction hs generalizing d with
  | nil => simpa [initDataAux] using h
  | cons hd tl ih =>
    rw [show initDataAux ctx (hd :: tl) d
        = initDataAux ctx tl (if isGeomRole ctx hd then d else dataSet d hd []) from rfl]
    apply ih
    by_cases hrole : isGeomRole ctx hd
    · simpa [hrole] using h
    · rw [if_neg hrole, dataGet_dataSet]
      by_cases hg : "geometry" = hd
      · rw [if_pos hg]
      · rw [if_neg hg]; exact h

theorem dataGet_initData_geometry (ctx : GeomCtx) (hs : List String) :
    dataGet (initData ctx hs) "geometry" = some [] :=
  dataGet_initDataAux_geometry ctx hs [("geometry", [])] (by simp [dataGet])

theorem geomCount_initData (ctx : GeomCtx) (hs : List String) :
    geomCount (initData ctx hs) = 0 := by
  simp [geomCount, dataGet_initData_geometry ctx hs]

theorem mkGeoDataFrame_ok (d : Data) (crs : String) (gdf : GeoDataFrame)
    (h : mkGeoDataFrame d crs = .ok gdf) :
    gdf = ⟨d, crs⟩ ∧ allSameLength d = true ∧ geometryColOk d = true := by
  by_cases h1 : allSameLength d
  · by_cases h2 : geometryColOk d
    · simp [mkGeoDataFrame, h1, h2] at h
      exact ⟨h.symm, h1, h2⟩
    · simp [mkGeoDataFrame, h1, h2] at h
  · simp [mkGeoDataFrame, h1] at h

theorem csv_to_gdf_ok (headers : List String) (it : List (String × DataType))
    (spec : GeomColSpec) (crs : String) (rows : List Row)
    (gdf : GeoDataFrame) (skipped : Nat)
    (h : csv_to_gdf headers it spec crs rows = .ok (gdf, skipped)) :
    ∃ d, processRows (mkGeomCtx spec) it 0 (initData (mkGeomCtx spec) headers, 0) rows
        = .ok (d, skipped) ∧ mkGeoDataFrame d crs = .ok gdf := by
  have h2 : (processRows (mkGeomCtx spec) it 0 (initData (mkGeomCtx spec) headers, 0) rows).bind
      (fun st => (mkGeoDataFrame st.1 crs).map fun gdf => (gdf, st.2)) = .ok (gdf, skipped) := h
  clear h
  rename' h2 => h
  cases hp : processRows (mkGeomCtx spec) it 0 (initData (mkGeomCtx spec) headers, 0) rows with
  | error e => rw [hp] at h; exact Except.noConfusion h
  | ok st =>
    obtain ⟨d, s⟩ := st
    rw [hp] at h
    simp only [Except.bind] at h
    cases hm : mkGeoDataFrame d crs with
    | error e => rw [hm] at h; simp [Except.map] at h
    | ok g2 =>
      rw [hm] at h
      simp only [Except.map] at h
      cases h
      exact ⟨d, rfl, hm⟩

theorem numRows_eq_geomCount (d : Data) (crs : String) (gdf : GeoDataFrame)
    (h : mkGeoDataFrame d crs = .ok gdf) :
    gdf.numRows = geomCount d := by
  obtain ⟨hg, _, h2⟩ := mkGeoDataFrame_ok d crs gdf h
  subst hg
  cases hc : dataGet d "geometry" with
  | none => simp [geometryColOk, hc] at h2
  | some cs =>
    simp only [geometryColOk, hc] at h2
    have hall : ∀ c ∈ cs, Cell.isGeom c = true := List.all_eq_true.mp h2
    simp only [GeoDataFrame.numRows, geomCount, hc]
    exact (List.countP_eq_length.mpr hall).symm

theorem countP_total {α : Type} (p : α → Bool) (l : List α) :
    l.countP p + l.countP (fun a => !p a) = l.length := by
  induction l with
  | nil => simp
  | cons a t ih => by_cases h : p a <;> simp [List.countP_cons, h] <;> omega

theorem dataGet_mem {α : Type} (d : List (String × α)) (k : String) (v : α)
    (h : dataGet d k = some v) : (k, v) ∈ d := by
  induction d with
  | nil => simp [dataGet] at h
  | cons p t ih =>
    obtain ⟨k1, v1⟩ := p
    rw [dataGet_cons] at h
    by_cases hk : k1 = k
    · rw [if_pos hk] at h
      cases h
      subst hk
      exact List.mem_cons_self _ _
    · rw [if_neg hk] at h
      exact List.mem_cons_of_mem _ (ih h)

theorem allSameLength_mem (d : Data) (h : allSameLength d = true)
    (p q : String × List Cell) (hp : p ∈ d) (hq : q ∈ d) : p.2.length = q.2.length := by
  cases d with
  | nil => cases hp
  | cons hd t =>
    obtain ⟨k0, c0⟩ := hd
    have hall := List.all_eq_true.mp h
    have len : ∀ r ∈ (k0, c0) :: t, r.2.length = c0.length := by
      intro r hr
      rcases List.mem_cons.mp hr with h1 | h1
      · rw [h1]
      · exact eq_of_beq (hall r h1)
    rw [len p hp, len q hq]

/-- C1: for every header list, type assignment, geometry specification,
CRS string and row list on which csv_to_gdf returns without raising,
the row count of the returned GeoDataFrame plus the returned skip
count equals the number of rows the reader yielded. -/
theorem csv_to_gdf_row_count (headers : List String) (it : List (String × DataType))
    (spec : GeomColSpec) (crs : String) (rows : List Row)
    (gdf : GeoDataFrame) (skipped : Nat)
    (h : csv_to_gdf headers it spec crs rows = .ok (gdf, skipped)) :
    gdf.numRows + skipped = rows.length := by
  obtain ⟨d, hp, hm⟩ := csv_to_gdf_ok headers it spec crs rows gdf skipped h
  obtain ⟨h1, h2⟩ := processRows_ok_count (mkGeomCtx spec) it rows 0
    (initData (mkGeomCtx spec) headers) 0 d skipped hp
  rw [numRows_eq_geomCount d crs gdf hm, h1, geomCount_initData, h2]
  have := countP_total (geomSourceNonEmpty (mkGeomCtx spec)) rows
  omega

/-- Witness for C1: a concrete two-row WKT-mode conversion with one
empty geometry, yielding one output row and one skipped row. -/
theorem csv_to_gdf_row_count_witness :
    csv_to_gdf ["geom", "col1"] [("geom", .GEOMETRY), ("col1", .TEXT)] (.wkt "geom") "EPSG:4326"
        [[("geom", "POINT(1 2)"), ("col1", "a")], [("geom", ""), ("col1", "b")]]
      = .ok (⟨[("geometry", [.geom (.point (.finite 1 0) (.finite 2 0))]),
               ("col1", [.val (.text "a")])], "EPSG:4326"⟩, 1)
    ∧ GeoDataFrame.numRows ⟨[("geometry", [.geom (.point (.finite 1 0) (.finite 2 0))]),
        ("col1", [.val (.text "a")])], "EPSG:4326"⟩ + 1 = 2 :=
  ⟨by decide,
    csv_to_gdf_row_count ["geom", "col1"] [("geom", .GEOMETRY), ("col1", .TEXT)] (.wkt "geom")
      "EPSG:4326" [[("geom", "POINT(1 2)"), ("col1", "a")], [("geom", ""), ("col1", "b")]]
      ⟨[("geometry", [.geom (.point (.finite 1 0) (.finite 2 0))]),
        ("col1", [.val (.text "a")])], "EPSG:4326"⟩ 1 (by decide)⟩

/-- C5: whenever csv_to_gdf returns without raising, the geometry
accumulator and every attribute accumulator of the returned table
contain the same number of entries, namely one per input row whose
geometry source fields were non-empty. -/
theorem csv_to_gdf_shape_consistency (headers : List String) (it : List (String × DataType))
    (spec : GeomColSpec) (crs : String) (rows : List Row)
    (gdf : GeoDataFrame) (skipped : Nat)
    (h : csv_to_gdf headers it spec crs rows = .ok (gdf, skipped)) :
    ∃ cs, dataGet gdf.cols "geometry" = some cs ∧
      cs.length = rows.countP (geomSourceNonEmpty (mkGeomCtx spec)) ∧
      ∀ p ∈ gdf.cols, p.2.length = cs.length := by
  obtain ⟨d, hp, hm⟩ := csv_to_gdf_ok headers it spec crs rows gdf skipped h
  obtain ⟨hg, hlen, hgeo⟩ := mkGeoDataFrame_ok d crs gdf hm
  obtain ⟨h1, _⟩ := processRows_ok_count (mkGeomCtx spec) it rows 0
    (initData (mkGeomCtx spec) headers) 0 d skipped hp
  cases hc : dataGet d "geometry" with
  | none => simp [geometryColOk, hc] at hgeo
  | some cs =>
    refine ⟨cs, by rw [hg]; exact hc, ?_, ?_⟩
    · simp only [geometryColOk, hc] at hgeo
      have hall : ∀ c ∈ cs, Cell.isGeom c = true := List.all_eq_true.mp hgeo
      have hcnt : cs.countP Cell.isGeom = cs.length := List.countP_eq_length.mpr hall
      have : geomCount d = cs.length := by simp [geomCount, hc, hcnt]
      rw [← this, h1, geomCount_initData]
      omega
    · intro p hp2
      rw [hg] at hp2
      exact allSameLength_mem d hlen p ("geometry", cs) hp2 (dataGet_mem d "geometry" cs hc)

/-- Witness for C5: a concrete lat/lon-mode conversion where the
geometry and attribute accumulators each hold one entry for the single
coordinate-bearing row. -/
theorem csv_to_gdf_shape_consistency_witness :
    csv_to_gdf ["lat", "lon", "col1"]
        [("lat", .LATITUDE), ("lon", .LONGITUDE), ("col1", .TEXT)]
        (.latlon "lat" "lon") "EPSG:4326"
        [[("lat", "1"), ("lon", "2"), ("col1", "a")], [("lat", ""), ("lon", "2"), ("col1", "b")]]
      = .ok (⟨[("geometry", [.geom (.point (.finite 2 0) (.finite 1 0))]),
               ("col1", [.val (.text "a")])], "EPSG:4326"⟩, 1)
    ∧ (∃ cs, dataGet [("geometry", [Cell.geom (.point (.finite 2 0) (.finite 1 0))]),
          ("col1", [Cell.val (.text "a")])] "geometry" = some cs ∧
        cs.length = 1 ∧
        ∀ p ∈ [("geometry", [Cell.geom (.point (.finite 2 0) (.finite 1 0))]),
          ("col1", [Cell.val (.text "a")])], p.2.length = cs.length) :=
  ⟨by decide,
    csv_to_gdf_shape_consistency ["lat", "lon", "col1"]
      [("lat", .LATITUDE), ("lon", .LONGITUDE), ("col1", .TEXT)] (.latlon "lat" "lon")
      "EPSG:4326"
      [[("lat", "1"), ("lon", "2"), ("col1", "a")], [("lat", ""), ("lon", "2"), ("col1", "b")]]
      ⟨[("geometry", [.geom (.point (.finite 2 0) (.finite 1 0))]),
        ("col1", [.val (.text "a")])], "EPSG:4326"⟩ 1 (by decide)⟩

theorem processRows_append (ctx : GeomCtx) (it : List (String × DataType))
    (xs ys : List Row) (n : Nat) (st : Data × Nat) :
    processRows ctx it n st (xs ++ ys)
      = (processRows ctx it n st xs >>= fun st1 =>
          processRows ctx it (n + xs.length) st1 ys) := by
  induction xs generalizing n st with
  | nil =>
    rw [show processRows ctx it n st [] = .ok st from rfl, except_bind_ok]
    simp
  | cons r rest ih =>
    rw [show ((r :: rest) ++ ys) = r :: (rest ++ ys) from rfl,
      show processRows ctx it n st (r :: (rest ++ ys))
        = (processRow ctx it n r st >>= fun st1 =>
            processRows ctx it (n + 1) st1 (rest ++ ys)) from rfl,
      show processRows ctx it n st (r :: rest)
        = (processRow ctx it n r st >>= fun st1 =>
            processRows ctx it (n + 1) st1 rest) from rfl]
    cases hp : processRow ctx it n r st with
    | error e => rw [except_bind_error, except_bind_error, except_bind_error]
    | ok st1 =>
      rw [except_bind_ok, except_bind_ok, ih (n + 1) st1]
      have harith : n + 1 + rest.length = n + (r :: rest).length := by
        simp
        omega
      simp only [harith]

/-- C3: in WKT mode, whenever row processing reaches a row whose
geometry column holds a non-empty string that the WKT parser rejects,
csv_to_gdf raises a ValueError naming the 1-based row number and the
offending text, rather than skipping the row. -/
theorem wkt_parse_error_aborts (headers : List String) (it : List (String × DataType))
    (g crs : String) (rows : List Row) (i : Nat) (row : Row) (v : String) (st : Data × Nat)
    (hg : g ≠ "")
    (hpre : processRows (mkGeomCtx (.wkt g)) it 0
        (initData (mkGeomCtx (.wkt g)) headers, 0) (rows.take i) = .ok st)
    (hrow : rows[i]? = some row)
    (hv : dataGet row g = some v)
    (hne : v ≠ "")
    (hparse : from_wkt v = none) :
    csv_to_gdf headers it (.wkt g) crs rows
      = .error (.valueError ("Error parsing WKT geometry in row "
          ++ toString (i + 1) ++ ": " ++ pyQuote v)) := by
  obtain ⟨d, k⟩ := st
  obtain ⟨hlt, hget⟩ := List.getElem?_eq_some.mp hrow
  have hsplit : rows = rows.take i ++ row :: rows.drop (i + 1) := by
    conv_lhs => rw [← List.take_append_drop i rows]
    rw [List.drop_eq_getElem_cons hlt, hget]
  have hlen : (rows.take i).length = i := by
    rw [List.length_take]
    omega
  rw [show csv_to_gdf headers it (.wkt g) crs rows
      = (processRows (mkGeomCtx (.wkt g)) it 0
          (initData (mkGeomCtx (.wkt g)) headers, 0) rows >>= fun st =>
            (mkGeoDataFrame st.1 crs).map fun gdf => (gdf, st.2)) from rfl,
    hsplit, processRows_append]
  simp only [hlen, Nat.zero_add]
  rw [hpre, except_bind_ok,
    show processRows (mkGeomCtx (.wkt g)) it i (d, k) (row :: rows.drop (i + 1))
      = (processRow (mkGeomCtx (.wkt g)) it i row (d, k) >>= fun st1 =>
          processRows (mkGeomCtx (.wkt g)) it (i + 1) st1 (rows.drop (i + 1))) from rfl,
    processRow_wkt (mkGeomCtx (.wkt g)) it g i row (d, k) rfl hg,
    wktStep_badwkt (mkGeomCtx (.wkt g)) it g i row d k v hv hne hparse,
    except_bind_error, except_bind_error]

/-- Witness for C3: a two-row WKT-mode input whose second row holds
the unparseable text NOT A GEOM produces the fatal error naming row 2
and that text. -/
theorem wkt_parse_error_aborts_witness :
    csv_to_gdf ["geom"] [("geom", .GEOMETRY)] (.wkt "geom") "EPSG:4326"
        [[("geom", "POINT(3 4)")], [("geom", "NOT A GEOM")]]
      = .error (.valueError "Error parsing WKT geometry in row 2: \x27NOT A GEOM\x27") :=
  wkt_parse_error_aborts ["geom"] [("geom", .GEOMETRY)] "geom" "EPSG:4326"
    [[("geom", "POINT(3 4)")], [("geom", "NOT A GEOM")]] 1 [("geom", "NOT A GEOM")]
    "NOT A GEOM" ([("geometry", [.geom (.point (.finite 3 0) (.finite 4 0))])], 0)
    (by decide) (by decide) (by decide) (by decide) (by decide) (by decide)

/-- C4: in WKT mode, a row whose geometry column holds the empty
string is skipped: the skip count rises by exactly one, no accumulator
is touched, no error is raised, and processing continues with the
subsequent rows. -/
theorem wkt_empty_geom_skips (it : List (String × DataType)) (g : String) (n : Nat)
    (row : Row) (rest : List Row) (d : Data) (k : Nat)
    (hg : g ≠ "") (hv : dataGet row g = some "") :
    processRow (mkGeomCtx (.wkt g)) it n row (d, k) = .ok (d, k + 1) ∧
    processRows (mkGeomCtx (.wkt g)) it n (d, k) (row :: rest)
      = processRows (mkGeomCtx (.wkt g)) it (n + 1) (d, k + 1) rest := by
  have h1 : processRow (mkGeomCtx (.wkt g)) it n row (d, k) = .ok (d, k + 1) := by
    rw [processRow_wkt (mkGeomCtx (.wkt g)) it g n row (d, k) rfl hg]
    exact wktStep_empty (mkGeomCtx (.wkt g)) it g n row d k hv
  refine ⟨h1, ?_⟩
  rw [show processRows (mkGeomCtx (.wkt g)) it n (d, k) (row :: rest)
      = (processRow (mkGeomCtx (.wkt g)) it n row (d, k) >>= fun st1 =>
          processRows (mkGeomCtx (.wkt g)) it (n + 1) st1 rest) from rfl,
    h1, except_bind_ok]

/-- Witness for C4: a concrete empty-geometry row is skipped with the
accumulators untouched and processing continues on the remaining
row. -/
theorem wkt_empty_geom_skips_witness :
    processRow (mkGeomCtx (.wkt "geom")) [("geom", .GEOMETRY)] 0 [("geom", "")]
        ([("geometry", [])], 0) = .ok ([("geometry", [])], 1) ∧
    processRows (mkGeomCtx (.wkt "geom")) [("geom", .GEOMETRY)] 0 ([("geometry", [])], 0)
        ([("geom", "")] :: [[("geom", "POINT(1 1)")]])
      = processRows (mkGeomCtx (.wkt "geom")) [("geom", .GEOMETRY)] 1 ([("geometry", [])], 1)
          [[("geom", "POINT(1 1)")]] :=
  wkt_empty_geom_skips [("geom", .GEOMETRY)] "geom" 0 [("geom", "")]
    [[("geom", "POINT(1 1)")]] [("geometry", [])] 0 (by decide) (by decide)

/-- C6: in lat/lon mode a row with an empty longitude or latitude
value is skipped with the skip count incremented; a row with both
values non-empty and numeric contributes a point whose first
coordinate is the longitude and second the latitude; and a non-numeric
longitude or latitude raises the float ValueError instead of
skipping. -/
theorem latlon_mode_row_semantics (it : List (String × DataType)) (lat lon : String)
    (n : Nat) (row : Row) (d : Data) (k : Nat) :
    (∀ lonv, dataGet row lon = some lonv → lonv = "" →
      processRow (mkGeomCtx (.latlon lat lon)) it n row (d, k) = .ok (d, k + 1)) ∧
    (∀ lonv, dataGet row lon = some lonv → lonv ≠ "" → dataGet row lat = some "" →
      processRow (mkGeomCtx (.latlon lat lon)) it n row (d, k) = .ok (d, k + 1)) ∧
    (∀ lonv latv x y, dataGet row lon = some lonv → lonv ≠ "" →
      dataGet row lat = some latv → latv ≠ "" →
      pyFloat lonv = some x → pyFloat latv = some y →
      processRow (mkGeomCtx (.latlon lat lon)) it n row (d, k)
        = (dataAppend d "geometry" (.geom (.point x y)) >>= fun d1 =>
            appendAttrs (mkGeomCtx (.latlon lat lon)) it row d1 >>= fun d2 =>
              Except.ok (d2, k))) ∧
    (∀ lonv latv, dataGet row lon = some lonv → lonv ≠ "" →
      dataGet row lat = some latv → latv ≠ "" →
      pyFloat lonv = none →
      processRow (mkGeomCtx (.latlon lat lon)) it n row (d, k)
        = .error (.valueError ("could not convert string to float: " ++ pyQuote lonv))) ∧
    (∀ lonv latv x, dataGet row lon = some lonv → lonv ≠ "" →
      dataGet row lat = some latv → latv ≠ "" →
      pyFloat lonv = some x → pyFloat latv = none →
      processRow (mkGeomCtx (.latlon lat lon)) it n row (d, k)
        = .error (.valueError ("could not convert string to float: " ++ pyQuote latv))) := by
  refine ⟨?_, ?_, ?_, ?_, ?_⟩
  · intro lonv hv he
    subst he
    rw [processRow_latlon (mkGeomCtx (.latlon lat lon)) it n row (d, k) (Or.inl rfl)]
    exact latlonStep_lon_empty (mkGeomCtx (.latlon lat lon)) it row d k lon rfl hv
  · intro lonv hv hne htv
    rw [processRow_latlon (mkGeomCtx (.latlon lat lon)) it n row (d, k) (Or.inl rfl)]
    exact latlonStep_lat_empty (mkGeomCtx (.latlon lat lon)) it row d k lon lonv lat rfl hv hne rfl htv
  · intro lonv latv x y hv hne htv htne hf hf2
    rw [processRow_latlon (mkGeomCtx (.latlon lat lon)) it n row (d, k) (Or.inl rfl)]
    exact latlonStep_good (mkGeomCtx (.latlon lat lon)) it row d k lon lonv lat latv x y
      rfl hv hne rfl htv htne hf hf2
  · intro lonv latv hv hne htv htne hf
    rw [processRow_latlon (mkGeomCtx (.latlon lat lon)) it n row (d, k) (Or.inl rfl)]
    exact latlonStep_badlon (mkGeomCtx (.latlon lat lon)) it row d k lon lonv lat latv
      rfl hv hne rfl htv htne hf
  · intro lonv latv x hv hne htv htne hf hf2
    rw [processRow_latlon (mkGeomCtx (.latlon lat lon)) it n row (d, k) (Or.inl rfl)]
    exact latlonStep_badlat (mkGeomCtx (.latlon lat lon)) it row d k lon lonv lat latv x
      rfl hv hne rfl htv htne hf hf2

/-- Witness for C6: an empty longitude is skipped; numeric values 3.5
and 2.5 yield Point(3.5, 2.5) with longitude first; a non-numeric
latitude raises the float ValueError. -/
theorem latlon_mode_row_semantics_witness :
    processRow (mkGeomCtx (.latlon "lat" "lon")) [("lat", .LATITUDE), ("lon", .LONGITUDE)] 0
        [("lat", "1"), ("lon", "")] ([("geometry", [])], 0) = .ok ([("geometry", [])], 1) ∧
    processRow (mkGeomCtx (.latlon "lat" "lon")) [("lat", .LATITUDE), ("lon", .LONGITUDE)] 0
        [("lat", "2.5"), ("lon", "3.5")] ([("geometry", [])], 0)
      = .ok ([("geometry", [.geom (.point (.finite 35 (-1)) (.finite 25 (-1)))])], 0) ∧
    processRow (mkGeomCtx (.latlon "lat" "lon")) [("lat", .LATITUDE), ("lon", .LONGITUDE)] 0
        [("lat", "abc"), ("lon", "1")] ([("geometry", [])], 0)
      = .error (.valueError "could not convert string to float: \x27abc\x27") :=
  ⟨(latlon_mode_row_semantics [("lat", .LATITUDE), ("lon", .LONGITUDE)] "lat" "lon" 0
      [("lat", "1"), ("lon", "")] [("geometry", [])] 0).1 "" (by decide) rfl,
   ((latlon_mode_row_semantics [("lat", .LATITUDE), ("lon", .LONGITUDE)] "lat" "lon" 0
      [("lat", "2.5"), ("lon", "3.5")] [("geometry", [])] 0).2.2.1 "3.5" "2.5"
      (.finite 35 (-1)) (.finite 25 (-1)) (by decide) (by decide) (by decide) (by decide)
      (by decide) (by decide)).trans (by decide),
   (latlon_mode_row_semantics [("lat", .LATITUDE), ("lon", .LONGITUDE)] "lat" "lon" 0
      [("lat", "abc"), ("lon", "1")] [("geometry", [])] 0).2.2.2.2 "1" "abc" (.finite 1 0)
      (by decide) (by decide) (by decide) (by decide) (by decide) (by decide)⟩

/-- C7: BOOLEAN coercion never fails, yields true exactly for
non-empty strings, and in particular maps the literal text false to
true. -/
theorem coerce_boolean_truthiness (k v : String) :
    (∃ b, coerce_value k v .BOOLEAN = .ok (.bool b)) ∧
    (coerce_value k v .BOOLEAN = .ok (.bool true) ↔ v ≠ "") ∧
    coerce_value k "false" .BOOLEAN = .ok (.bool true) := by
  refine ⟨⟨v != "", rfl⟩, ?_, rfl⟩
  have hcv : coerce_value k v .BOOLEAN = .ok (.bool (v != "")) := rfl
  rw [hcv]
  constructor
  · intro h he
    subst he
    simp at h
  · intro hne
    rw [show (v != "") = true from bne_iff_ne.mpr hne]

/-- Witness for C7: the literal text false coerces to true and the
empty string does not. -/
theorem coerce_boolean_truthiness_witness :
    coerce_value "c" "false" .BOOLEAN = .ok (.bool true) ∧
    coerce_value "c" "" .BOOLEAN ≠ .ok (.bool true) :=
  ⟨(coerce_boolean_truthiness "c" "false").2.2,
   fun h => (coerce_boolean_truthiness "c" "").2.1.mp h rfl⟩

/-- C8 counterexample: the empty string and the spelling nan do not
match the year-month-day pattern, yet DATE coercion returns the NaT
value without raising, contradicting the claim that every
non-matching string raises a fatal parse error. -/
theorem coerce_date_nat_shortcircuit_cex :
    strptimeDateRaw "" = none ∧ coerce_value "c" "" .DATE = .ok .naT ∧
    strptimeDateRaw "nan" = none ∧ coerce_value "c" "nan" .DATE = .ok .naT :=
  ⟨by decide, by decide, by decide, by decide⟩

/-- C8 amended: DATE coercion short-circuits the empty string and the
pandas NaT-equivalent spellings to NaT without raising; every other
string is parsed with the fixed strptime pattern for year-month-day,
so 2023-01-15 yields that calendar date, 15/01/2023 raises a
ValueError, and so does every other string the pattern does not
match. -/
theorem coerce_date_fixed_pattern (k : String) :
    coerce_value k "2023-01-15" .DATE = .ok (.date ⟨2023, 1, 15⟩) ∧
    coerce_value k "15/01/2023" .DATE
      = .error (.valueError "time data \"15/01/2023\" doesn\x27t match format \"%Y-%m-%d\", at position 0") ∧
    (∀ v, (v = "" ∨ natStrings.contains v = true) → coerce_value k v .DATE = .ok .naT) ∧
    (∀ v, v ≠ "" → natStrings.contains v = false → strptimeDateRaw v = none →
      coerce_value k v .DATE
        = .error (.valueError ("time data \"" ++ v ++ "\" doesn\x27t match format \"%Y-%m-%d\", at position 0"))) := by
  refine ⟨by rfl, by rfl, ?_, ?_⟩
  · intro v hv
    have hcond : (decide (v = "") || natStrings.contains v) = true := by
      rcases hv with h | h
      · subst h; rfl
      · rw [h, Bool.or_true]
    have hm : pdToDatetimeDate v = .ok none := by
      unfold pdToDatetimeDate
      rw [if_pos hcond]
    calc coerce_value k v .DATE
        = (match pdToDatetimeDate v with
           | .error e => .error e
           | .ok (some d) => .ok (.date d)
           | .ok none => .ok .naT) := rfl
      _ = .ok .naT := by rw [hm]
  · intro v hne hnat hv
    have hcond : (decide (v = "") || natStrings.contains v) = false := by
      rw [decide_eq_false hne, hnat, Bool.or_false]
    have hm : pdToDatetimeDate v
        = .error (.valueError ("time data \"" ++ v ++ "\" doesn\x27t match format \"%Y-%m-%d\", at position 0")) := by
      unfold pdToDatetimeDate
      rw [if_neg (by rw [hcond]; exact Bool.false_ne_true), hv]
    calc coerce_value k v .DATE
        = (match pdToDatetimeDate v with
           | .error e => .error e
           | .ok (some d) => .ok (.date d)
           | .ok none => .ok .naT) := rfl
      _ = _ := by rw [hm]

/-- Witness for C8's amended claim: the two spec examples, a
NaT-equivalent spelling, and a further non-matching string, each
evaluated concretely. -/
theorem coerce_date_fixed_pattern_witness :
    coerce_value "c" "2023-01-15" .DATE = .ok (.date ⟨2023, 1, 15⟩) ∧
    coerce_value "c" "15/01/2023" .DATE
      = .error (.valueError "time data \"15/01/2023\" doesn\x27t match format \"%Y-%m-%d\", at position 0") ∧
    coerce_value "c" "NaT" .DATE = .ok .naT ∧
    coerce_value "c" "2023/01/15" .DATE
      = .error (.valueError "time data \"2023/01/15\" doesn\x27t match format \"%Y-%m-%d\", at position 0") :=
  ⟨(coerce_date_fixed_pattern "c").1, (coerce_date_fixed_pattern "c").2.1,
   (coerce_date_fixed_pattern "c").2.2.1 "NaT" (Or.inr (by decide)),
   (coerce_date_fixed_pattern "c").2.2.2 "2023/01/15" (by decide) (by decide) (by decide)⟩

/-- C9: coercion with any of the geometry-role tags LATITUDE,
LONGITUDE or GEOMETRY always raises (the fall-through Exception naming
the column and the tag) and never returns a value. -/
theorem coerce_geometry_role_fails (k v : String) (dt : DataType)
    (h : dt = .LATITUDE ∨ dt = .LONGITUDE ∨ dt = .GEOMETRY) :
    coerce_value k v dt
      = .error (.exception ("Unknown data type for col " ++ pyQuote k ++ ": "
          ++ dtypeStr dt ++ "...")) := by
  rcases h with h | h | h <;> subst h <;> rfl

/-- Witness for C9: the LATITUDE tag on a concrete value raises the
fall-through Exception. -/
theorem coerce_geometry_role_fails_witness :
    coerce_value "c" "1.0" .LATITUDE
      = .error (.exception "Unknown data type for col \x27c\x27: DataType.LATITUDE...") :=
  coerce_geometry_role_fails "c" "1.0" .LATITUDE (Or.inl rfl)

/-- C2 counterexample: an INT column named mycol with unparseable
value abc in input row 2 aborts csv_to_gdf with the int() ValueError,
whose message mentions neither the column name mycol nor the 1-based
row number 2. -/
theorem coercion_error_lacks_context_cex :
    csv_to_gdf ["geom", "mycol"] [("geom", .GEOMETRY), ("mycol", .INT)] (.wkt "geom")
        "EPSG:4326"
        [[("geom", "POINT(0 0)"), ("mycol", "7")], [("geom", "POINT(0 0)"), ("mycol", "abc")]]
      = .error (.valueError "invalid literal for int() with base 10: \x27abc\x27") ∧
    mentions "mycol" "invalid literal for int() with base 10: \x27abc\x27" = false ∧
    mentions "2" "invalid literal for int() with base 10: \x27abc\x27" = false :=
  ⟨by decide, by decide, by decide⟩

/-- C10: when a non-geometry-role column is itself named geometry, its
coerced values share the single accumulator keyed geometry with the
row geometries, the loop state has no separate attribute column of
that name, and the subsequent GeoDataFrame construction rejects the
mixed column. -/
theorem geometry_name_collision :
    processRows (mkGeomCtx (.wkt "wkt")) [("wkt", .GEOMETRY), ("geometry", .TEXT)] 0
        (initData (mkGeomCtx (.wkt "wkt")) ["wkt", "geometry"], 0)
        [[("wkt", "POINT(1 2)"), ("geometry", "hello")]]
      = .ok ([("geometry", [.geom (.point (.finite 1 0) (.finite 2 0)),
          .val (.text "hello")])], 0) ∧
    csv_to_gdf ["wkt", "geometry"] [("wkt", .GEOMETRY), ("geometry", .TEXT)] (.wkt "wkt")
        "EPSG:4326" [[("wkt", "POINT(1 2)"), ("geometry", "hello")]]
      = .error (.typeError "Input must be valid geometry objects") :=
  ⟨by decide, by decide⟩

/-- C2 amended: a scalar coercion failure aborts the whole conversion
with the underlying parser's value-error, propagated unmodified — the
message reports the offending value but is independent of the column
name and mentions no row number. Stated for an INT column with any
unparseable value in a WKT-mode conversion. -/
theorem coercion_error_propagated_unmodified (k v crs : String)
    (hk1 : k ≠ "g") (hk2 : k ≠ "geometry") (hv : pyInt v = none) :
    csv_to_gdf ["g", k] [("g", .GEOMETRY), (k, .INT)] (.wkt "g") crs
        [[("g", "POINT(0 0)"), (k, v)]]
      = .error (.valueError ("invalid literal for int() with base 10: " ++ pyQuote v)) ∧
    ∀ k2, coerce_value k2 v .INT = coerce_value k v .INT := by
  have hcv : ∀ k2, coerce_value k2 v .INT
      = .error (.valueError ("invalid literal for int() with base 10: " ++ pyQuote v)) := by
    intro k2
    calc coerce_value k2 v .INT
        = (match pyInt v with
           | some i => .ok (.int i)
           | none => .error (.valueError ("invalid literal for int() with base 10: " ++ pyQuote v))) := rfl
      _ = _ := by rw [hv]
  refine ⟨?_, fun k2 => by rw [hcv k2, hcv k]⟩
  have hctx : mkGeomCtx (.wkt "g") = ⟨none, none, some "g"⟩ := rfl
  have hrole : isGeomRole ⟨none, none, some "g"⟩ k = false := by
    simp [isGeomRole]
    exact fun hh => hk1 hh.symm
  have hinit : initData ⟨none, none, some "g"⟩ ["g", k] = [("geometry", []), (k, [])] := by
    rw [show initData ⟨none, none, some "g"⟩ ["g", k]
        = initDataAux ⟨none, none, some "g"⟩ [k]
            (if isGeomRole ⟨none, none, some "g"⟩ "g" then [("geometry", [])]
             else dataSet [("geometry", [])] "g" []) from rfl]
    rw [if_pos (by decide)]
    rw [show initDataAux ⟨none, none, some "g"⟩ [k] [("geometry", [])]
        = initDataAux ⟨none, none, some "g"⟩ []
            (if isGeomRole ⟨none, none, some "g"⟩ k then [("geometry", [])]
             else dataSet [("geometry", [])] k []) from rfl]
    rw [if_neg (by rw [hrole]; exact Bool.false_ne_true)]
    rw [show dataSet [("geometry", [])] k ([] : List Cell)
        = if "geometry" = k then [(k, [])] else [("geometry", []), (k, [])] by
      rw [dataSet_cons]
      by_cases hgk : "geometry" = k
      · rw [if_pos hgk, if_pos hgk]
      · rw [if_neg hgk, if_neg hgk]
        rfl]
    rw [if_neg (fun hh => hk2 hh.symm)]
    rfl
  have hda : dataAppend [("geometry", []), (k, [])] "geometry"
      (.geom (.point (.finite 0 0) (.finite 0 0)))
      = .ok [("geometry", [.geom (.point (.finite 0 0) (.finite 0 0))]), (k, [])] := by
    rw [dataAppend_cons, if_pos rfl]
    rfl
  have hT : dataGet [("g", DataType.GEOMETRY), (k, DataType.INT)] k = some .INT := by
    rw [dataGet_cons, if_neg (fun hh => hk1 hh.symm), dataGet_cons, if_pos rfl]
  have haa : appendAttrs ⟨none, none, some "g"⟩ [("g", .GEOMETRY), (k, .INT)]
      [("g", "POINT(0 0)"), (k, v)]
      [("geometry", [.geom (.point (.finite 0 0) (.finite 0 0))]), (k, [])]
      = .error (.valueError ("invalid literal for int() with base 10: " ++ pyQuote v)) := by
    rw [appendAttrs_cons_role _ _ _ _ _ _ (by decide),
      appendAttrs_cons_some _ _ _ _ _ _ .INT (by rw [hrole]; exact Bool.false_ne_true) hT,
      hcv k, except_bind_error]
  rw [show csv_to_gdf ["g", k] [("g", .GEOMETRY), (k, .INT)] (.wkt "g") crs
        [[("g", "POINT(0 0)"), (k, v)]]
      = (processRows (mkGeomCtx (.wkt "g")) [("g", .GEOMETRY), (k, .INT)] 0
          (initData (mkGeomCtx (.wkt "g")) ["g", k], 0) [[("g", "POINT(0 0)"), (k, v)]]
            >>= fun st => (mkGeoDataFrame st.1 crs).map fun gdf => (gdf, st.2)) from rfl,
    hctx, hinit,
    show processRows ⟨none, none, some "g"⟩ [("g", .GEOMETRY), (k, .INT)] 0
        ([("geometry", []), (k, [])], 0) [[("g", "POINT(0 0)"), (k, v)]]
      = (processRow ⟨none, none, some "g"⟩ [("g", .GEOMETRY), (k, .INT)] 0
          [("g", "POINT(0 0)"), (k, v)] ([("geometry", []), (k, [])], 0) >>= fun st1 =>
            processRows ⟨none, none, some "g"⟩ [("g", .GEOMETRY), (k, .INT)] 1 st1 []) from rfl,
    processRow_wkt ⟨none, none, some "g"⟩ _ "g" 0 _ _ rfl (by decide),
    wktStep_goodwkt ⟨none, none, some "g"⟩ _ "g" 0 _ _ 0 "POINT(0 0)"
      (.point (.finite 0 0) (.finite 0 0))
      (by rw [dataGet_cons, if_pos rfl]) (by decide) (by decide),
    hda, except_bind_ok, haa, except_bind_error, except_bind_error, except_bind_error]

/-- Witness for C2's amended claim: the value abc in column mycol
aborts the conversion with exactly the int() message. -/
theorem coercion_error_propagated_unmodified_witness :
    csv_to_gdf ["g", "mycol"] [("g", .GEOMETRY), ("mycol", .INT)] (.wkt "g") "EPSG:4326"
        [[("g", "POINT(0 0)"), ("mycol", "abc")]]
      = .error (.valueError "invalid literal for int() with base 10: \x27abc\x27") ∧
    ∀ k2, coerce_value k2 "abc" .INT = coerce_value "mycol" "abc" .INT :=
  coercion_error_propagated_unmodified "mycol" "abc" "EPSG:4326"
    (by decide) (by decide) (by decide)

end GeoTools
